import Mathlib

/-!
Shallow embedding of the LancorC admin dashboard client
(`src/context/AuthContext.tsx`, `src/app/layout.tsx`,
`src/app/(dashboard)/users/page.tsx`, and the mock-API users page).

JavaScript truthiness on strings (`""` is falsy) and the nullish
coalescing operator (`??`, only `null`/`undefined` fall through) are
modelled explicitly, since several guards in the source depend on them.
-/

namespace LancorC

/-- `User` record, from the `User` interface in `AuthContext.tsx`.
`user_type` is modelled as a plain string: the TypeScript union is erased
at runtime and `handleVerifyOtp` casts arbitrary response data into it. -/
structure User where
  user_id : String
  society_id : String
  full_name : String
  email : String
  phone : String
  user_type : String
  is_active : Bool
deriving DecidableEq, Repr

/-- `AuthResponse` interface from `AuthContext.tsx`. -/
structure AuthResponse where
  token : String
  user : User
deriving DecidableEq, Repr

/-- JS `a || b` where `a` is a possibly-absent string: falls through to `b`
when `a` is absent (`null`/`undefined`) or empty (falsy). -/
def jsOr (a : Option String) (b : String) : String :=
  match a with
  | some s => if s == "" then b else s
  | none => b

/-- JS `a || b` keeping the option: used for
`localStorage.getItem("token") || localStorage.getItem("auth_token")`. -/
def jsOrOpt (a b : Option String) : Option String :=
  match a with
  | some s => if s == "" then b else some s
  | none => b

/-- JS truthiness of a nullable string: truthy iff present and non-empty. -/
def truthyStr : Option String → Bool
  | some s => s != ""
  | none => false

/-- JS `a ?? b` on a nullable boolean: only absence falls through. -/
def nullish (a : Option Bool) (b : Bool) : Bool := a.getD b

/- ------------------------------------------------------------------ -/
/- AuthContext: storage, session restore, login/logout, derived flags -/
/- ------------------------------------------------------------------ -/

/-- `AUTH_STORAGE_KEY` from `AuthContext.tsx`. -/
def AUTH_STORAGE_KEY : String := "lancorc_auth"

/-- `EXPIRATION_MS = 48 * 60 * 60 * 1000` from `AuthContext.tsx`. -/
def EXPIRATION_MS : Int := 48 * 60 * 60 * 1000

/-- Browser local storage, as a map from keys to stored strings. -/
def Storage : Type := String → Option String

/-- `localStorage.setItem`. -/
def storageSet (st : Storage) (k v : String) : Storage :=
  fun q => if q == k then some v else st q

/-- `localStorage.removeItem`. -/
def storageRemove (st : Storage) (k : String) : Storage :=
  fun q => if q == k then none else st q

/-- `StoredAuth` interface from `AuthContext.tsx` (timestamps in ms). -/
structure StoredAuth where
  user : User
  token : String
  timestamp : Int
deriving DecidableEq, Repr

/-- What the `AUTH_STORAGE_KEY` entry looks like to the mount effect:
absent, present but not valid JSON for `StoredAuth`, or parsed. -/
inductive StoredEntry where
  | absent : StoredEntry
  | unparsable : String → StoredEntry
  | parsed : StoredAuth → StoredEntry
deriving DecidableEq, Repr

/-- Result of the `AuthProvider` mount effect: the `user`/`token` state set
by `setUser`/`setToken`, and whether the stored entry was removed. -/
structure MountResult where
  user : Option User
  token : Option String
  removed : Bool
deriving DecidableEq, Repr

/-- The mount `useEffect` of `AuthProvider` (`AuthContext.tsx` lines 48-65):
reads the stored entry, drops it when unparsable or older than
`EXPIRATION_MS`, restores `user`/`token` otherwise. -/
def authMount (entry : StoredEntry) (now : Int) : MountResult :=
  match entry with
  | .absent => ⟨none, none, false⟩
  | .unparsable _ => ⟨none, none, true⟩
  | .parsed sa =>
    if now - sa.timestamp > EXPIRATION_MS then ⟨none, none, true⟩
    else ⟨some sa.user, some sa.token, false⟩

/-- In-memory auth state held by `AuthProvider`. -/
structure AuthState where
  user : Option User
  token : Option String
deriving DecidableEq, Repr

/-- `login` callback: persists a `StoredAuth` blob under `AUTH_STORAGE_KEY`
and sets the in-memory state. The blob is kept abstract as the serialized
string. -/
def loginApply (st : Storage) (blob : String) (response : AuthResponse) :
    AuthState × Storage :=
  (⟨some response.user, some response.token⟩, storageSet st AUTH_STORAGE_KEY blob)

/-- `logout` callback: nulls `user` and `token` and removes the stored
entry. -/
def logoutApply (_s : AuthState) (st : Storage) : AuthState × Storage :=
  (⟨none, none⟩, storageRemove st AUTH_STORAGE_KEY)

/-- `isAdmin = user?.user_type === "ADMIN"` from `AuthContext.tsx`. -/
def isAdminOf (user : Option User) : Bool :=
  match user with
  | some u => u.user_type == "ADMIN"
  | none => false

/-- `isAuthenticated: !!user && !!token` from `AuthContext.tsx`: note the
string truthiness on `token`. -/
def isAuthenticatedOf (user : Option User) (token : Option String) : Bool :=
  user.isSome && truthyStr token

/- ------------------------------------------------------------------ -/
/- Root layout gate                                                   -/
/- ------------------------------------------------------------------ -/

/-- The three mutually exclusive renders of `DashboardLayoutContent` in
`layout.tsx`: the loading placeholder, the restricted-access screen
(lock icon, "Login to Continue", login dialog), and the dashboard shell
(sidebar, header, routed `children`). -/
inductive LayoutRender where
  | loading : LayoutRender
  | restricted : LayoutRender
  | shell : LayoutRender
deriving DecidableEq, Repr

/-- Render decision of `DashboardLayoutContent` (`layout.tsx` lines 49-75),
mirroring the two early returns. -/
def dashboardLayoutContent (mounted isLoading isAuthenticated isAdmin : Bool) :
    LayoutRender :=
  if !mounted || isLoading then .loading
  else if !isAuthenticated || !isAdmin then .restricted
  else .shell

/- ------------------------------------------------------------------ -/
/- LoginDialog: email → OTP wizard                                    -/
/- ------------------------------------------------------------------ -/

/-- `MAX_ATTEMPTS` from the LoginDialog module. -/
def MAX_ATTEMPTS : Nat := 3

/-- `OTP_EXPIRY_MINUTES` from the LoginDialog module. -/
def OTP_EXPIRY_MINUTES : Int := 10

/-- The two wizard steps of `LoginDialog`. -/
inductive Step where
  | email : Step
  | otp : Step
deriving DecidableEq, Repr

/-- The `useState` pieces of `LoginDialog` relevant to the OTP flow, plus
whether the countdown interval is currently installed (`timerRef`). -/
structure OtpState where
  step : Step
  emailAddr : String
  otp : String
  isLoading : Bool
  error : String
  success : String
  attempts : Nat
  otpSentTime : Option Int
  timeLeft : Int
  timerActive : Bool
deriving DecidableEq, Repr

/-- JS `String.prototype.trim`: drop leading and trailing whitespace,
written over the character list so that it evaluates by reduction. -/
def strTrim (s : String) : String :=
  String.mk
    (((s.data.dropWhile Char.isWhitespace).reverse.dropWhile
        Char.isWhitespace).reverse)

/-- The OTP input `onChange` handler:
`e.target.value.replace(/\D/g, "").slice(0, 6)`. -/
def setOtpInput (s : OtpState) (raw : String) : OtpState :=
  { s with otp := String.mk ((raw.data.filter fun c => c.isDigit).take 6) }

/-- One firing of the countdown interval (LoginDialog `useEffect`,
`AuthContext.tsx` lines 149-165) at wall-clock time `now` (ms). On expiry
it sets the error, clears the OTP input, and clears the interval;
`setTimeLeft remaining` runs either way. -/
def tick (s : OtpState) (now : Int) : OtpState :=
  match s.otpSentTime with
  | none => s
  | some t0 =>
    let elapsed := (now - t0).fdiv 1000
    let remaining := OTP_EXPIRY_MINUTES * 60 - elapsed
    if remaining ≤ 0 then
      { s with error := "OTP has expired. Please request a new one."
             , otp := ""
             , timerActive := false
             , timeLeft := remaining }
    else { s with timeLeft := remaining }

/-- Outcome of the guards at the top of `handleVerifyOtp`: either an error
is shown without any network request, or the `/verify-otp` fetch is sent. -/
inductive VerifyAction where
  | reject : String → VerifyAction
  | send : VerifyAction
deriving DecidableEq, Repr

/-- The guard sequence of `handleVerifyOtp` (`AuthContext.tsx` lines
225-242): malformed OTP first, then the attempt cap, otherwise the fetch
is issued. -/
def handleVerifyGuard (s : OtpState) : VerifyAction :=
  if (strTrim s.otp) == "" || s.otp.length != 6 then
    .reject "Please enter a valid 6-digit OTP"
  else if s.attempts ≥ MAX_ATTEMPTS then
    .reject "Maximum attempts exceeded. Please request a new OTP."
  else .send

/-- The failure branch of the `/verify-otp` response handler
(`AuthContext.tsx` lines 251-262): increments `attempts` and picks the
error message from the remaining count. -/
def handleVerifyFailure (s : OtpState) (serverMsg : String) : OtpState :=
  let newAttempts := s.attempts + 1
  { s with attempts := newAttempts
         , isLoading := false
         , error :=
             if MAX_ATTEMPTS - newAttempts > 0 then
               serverMsg ++ ". " ++ toString (MAX_ATTEMPTS - newAttempts) ++
                 " attempt(s) remaining."
             else "Maximum attempts exceeded. Please request a new OTP." }

/-- `handleResendOtp` (`AuthContext.tsx` lines 292-301). -/
def handleResend (s : OtpState) : OtpState :=
  { s with otp := ""
         , step := .email
         , error := ""
         , success := ""
         , attempts := 0
         , otpSentTime := none }

/-- The success branch of `handleSendOtp` (`AuthContext.tsx` lines
195-211): clears messages, moves to the OTP step, stamps the send time and
resets `attempts`. -/
def handleSendOtpSuccess (s : OtpState) (now : Int) : OtpState :=
  { s with error := ""
         , success := "OTP sent to your email successfully!"
         , step := .otp
         , otpSentTime := some now
         , attempts := 0
         , isLoading := false }

/-- The fields of the `/verify-otp` JSON response body that
`handleVerifyOtp` inspects, each optional, plus `res.ok`. `error` is
modelled as a nullable string tested for truthiness. -/
structure VerifyData where
  ok : Bool
  success : Option Bool
  valid : Option Bool
  error : Option String
  message : Option String
  token : Option String
  jwt : Option String
  accessToken : Option String
  dataToken : Option String
  user : Option User
  userDto : Option User
  profile : Option User
  dataUser : Option User
  userId : Option String
  id : Option String
  user_id : Option String
  societyId : Option String
  society_id : Option String
  name : Option String
  fullName : Option String
  full_name : Option String
  email : Option String
  phone : Option String
  userType : Option String
  user_type : Option String
  role : Option String
  isActive : Option Bool
  is_active : Option Bool
deriving DecidableEq, Repr

/-- `!res.ok || data.success === false || data.valid === false ||
data.error` — the failure test of the verify response handler. -/
def isFailure (d : VerifyData) : Bool :=
  !d.ok || d.success == some false || d.valid == some false || truthyStr d.error

/-- `email.split("@")[0]`. -/
def emailLocal (email : String) : String :=
  (email.splitOn "@").headD ""

/-- The inline fallback user object built by `handleVerifyOtp` when the
response carries no user object (`AuthContext.tsx` lines 270-277). -/
def fallbackUser (d : VerifyData) (email : String) : User :=
  { user_id := jsOr d.userId (jsOr d.id (jsOr d.user_id ""))
  , society_id := jsOr d.societyId (jsOr d.society_id "")
  , full_name := jsOr d.name (jsOr d.fullName (jsOr d.full_name (emailLocal email)))
  , email := jsOr d.email email
  , phone := jsOr d.phone ""
  , user_type := jsOr d.userType (jsOr d.user_type (jsOr d.role "ADMIN"))
  , is_active := nullish d.isActive (nullish d.is_active true) }

/-- `data.user || data.userDto || data.profile || data.data?.user`:
the first user object present in the response. -/
def firstUserObj (d : VerifyData) : Option User :=
  d.user <|> d.userDto <|> d.profile <|> d.dataUser

/-- The `authResponse` value built in the success branch of
`handleVerifyOtp` and passed to `login` (`AuthContext.tsx` lines
267-278). -/
def verifyAuthResponse (d : VerifyData) (email : String) : AuthResponse :=
  { token := jsOr d.token (jsOr d.jwt (jsOr d.accessToken (jsOr d.dataToken "")))
  , user :=
      match firstUserObj d with
      | some u => u
      | none => fallbackUser d email }

/- ------------------------------------------------------------------ -/
/- Users page: headers, query, filtering, mutations                   -/
/- ------------------------------------------------------------------ -/

/-- `API_BASE` of the users page. -/
def usersApiBase : String := "http://localhost:8080/api/admin/users"

/-- The token lookup in `getHeaders` (`users/page.tsx` lines 55-61):
`localStorage.getItem("token") || localStorage.getItem("auth_token")`. -/
def getHeadersToken (st : Storage) : Option String :=
  jsOrOpt (st "token") (st "auth_token")

/-- `getHeaders`: always `Content-Type`, plus `Authorization` exactly when
the looked-up token is truthy. -/
def getHeaders (st : Storage) : List (String × String) :=
  match getHeadersToken st with
  | some t =>
    if t == "" then [("Content-Type", "application/json")]
    else [("Content-Type", "application/json"), ("Authorization", "Bearer " ++ t)]
  | none => [("Content-Type", "application/json")]

/-- URL built by `fetchUsers` (`users/page.tsx` line 69). -/
def fetchUsersUrl (societyId : String) : String :=
  usersApiBase ++ "?societyId=" ++ societyId

/-- The `enabled` option of the users query (`users/page.tsx` line 219):
`!!user?.society_id && isAuthenticated`. -/
def usersQueryEnabled (user : Option User) (isAuthenticated : Bool) : Bool :=
  truthyStr (user.map fun u => u.society_id) && isAuthenticated

/-- The argument the `queryFn` passes to `fetchUsers`
(`users/page.tsx` line 217): `user?.society_id || ""`. -/
def queryFnSocietyArg (user : Option User) : String :=
  jsOr (user.map fun u => u.society_id) ""

/-- The list held in `data` (`users/page.tsx` line 213): the fetched list
when the query is enabled, the `= []` default otherwise. -/
def usersQueryData (user : Option User) (isAuthenticated : Bool)
    (fetched : List User) : List User :=
  if usersQueryEnabled user isAuthenticated then fetched else []

/-- Boolean infix test on character lists: does the first list occur
contiguously inside the second? Models JS `String.prototype.includes`. -/
def charsHavePre : List Char → List Char → Bool
  | [], _ => true
  | _ :: _, [] => false
  | a :: as, b :: bs => a == b && charsHavePre as bs

/-- Helper for `strIncludes`: scan every suffix of the haystack. -/
def charsHaveSub (needle : List Char) : List Char → Bool
  | [] => charsHavePre needle []
  | b :: bs => charsHavePre needle (b :: bs) || charsHaveSub needle bs

/-- `hay.includes(needle)` on strings. -/
def strIncludes (hay needle : String) : Bool :=
  charsHaveSub needle.data hay.data

/-- The predicate of `filteredUsers` (`users/page.tsx` lines 243-254):
`matchesSearch && matchesType`, with case-insensitive containment over
name and email and the string truthiness of `searchTerm`. The type filter
is a string, `"ALL"` or a user type. -/
def matchesUser (searchTerm typeFilter : String) (u : User) : Bool :=
  let name := u.full_name
  let email := u.email
  let matchesSearch :=
    searchTerm == "" ||
      strIncludes name.toLower searchTerm.toLower ||
      strIncludes email.toLower searchTerm.toLower
  let matchesType := typeFilter == "ALL" || u.user_type == typeFilter
  matchesSearch && matchesType

/-- `filteredUsers = users.filter(...)` from the users page. -/
def filteredUsers (users : List User) (searchTerm typeFilter : String) :
    List User :=
  users.filter (matchesUser searchTerm typeFilter)

/-- `softDeleteUser` from the mock API layer (`part_002` lines 134-150):
finds the first user with the given id, flips `is_active` to `false` in
place, and returns the updated list; `none` models the thrown
"User not found". -/
def softDeleteUser : List User → String → Option (List User)
  | [], _ => none
  | u :: rest, uid =>
    if u.user_id == uid then some ({ u with is_active := false } :: rest)
    else
      match softDeleteUser rest uid with
      | some rest2 => some (u :: rest2)
      | none => none

/-- URL of `toggleUserStatus` (`users/page.tsx` line 107). -/
def toggleStatusUrl (uid : String) (active : Bool) : String :=
  usersApiBase ++ "/" ++ uid ++ "/status?active=" ++ (if active then "true" else "false")

/-- The live page's Delete action (`deleteMutation`, `users/page.tsx`
lines 238-241): a status toggle to inactive. -/
def deleteRequestUrl (uid : String) : String :=
  toggleStatusUrl uid false

/-- `disabled={!u.is_active}` on the Delete button
(`users/page.tsx` line 339). -/
def deleteButtonDisabled (u : User) : Bool :=
  !u.is_active

/- ------------------------------------------------------------------ -/
/- Concrete sample data, mirroring the mock seed records              -/
/- ------------------------------------------------------------------ -/

/-- First seed record of `mockUsers` in the mock API layer. -/
def demoUser : User :=
  { user_id := "aaaaaaaa-aaaa-aaaa-aaaa-aaaaaaaaaaaa"
  , society_id := "11111111-1111-1111-1111-111111111111"
  , full_name := "John Admin"
  , email := "admin@example.com"
  , phone := "+91 98765 43210"
  , user_type := "ADMIN"
  , is_active := true }

/-- Second seed record of `mockUsers` in the mock API layer. -/
def demoOwner : User :=
  { user_id := "bbbbbbbb-bbbb-bbbb-bbbb-bbbbbbbbbbbb"
  , society_id := "11111111-1111-1111-1111-111111111111"
  , full_name := "Meena Owner"
  , email := "meena.owner@example.com"
  , phone := "+91 90000 00001"
  , user_type := "OWNER"
  , is_active := true }

/-- A local storage with no entries. -/
def emptyStorage : Storage := fun _ => none

/- ------------------------------------------------------------------ -/
/- Theorems                                                           -/
/- ------------------------------------------------------------------ -/

/-- C1: for every render of `DashboardLayoutContent` after the
mount/loading phase (`mounted` true, `isLoading` false), the
restricted-access screen is rendered exactly when `isAuthenticated &&
isAdmin` fails, and the dashboard shell with the routed children is
rendered exactly when it holds; the three renders are mutually
exclusive constructors, so neither render ever includes the other. -/
theorem layout_gate (mounted isLoading isAuthenticated isAdmin : Bool)
    (hm : mounted = true) (hl : isLoading = false) :
    (dashboardLayoutContent mounted isLoading isAuthenticated isAdmin =
        LayoutRender.restricted ↔ ¬(isAuthenticated = true ∧ isAdmin = true)) ∧
    (dashboardLayoutContent mounted isLoading isAuthenticated isAdmin =
        LayoutRender.shell ↔ (isAuthenticated = true ∧ isAdmin = true)) := by
  subst hm hl
  cases isAuthenticated <;> cases isAdmin <;>
    exact ⟨by decide, by decide⟩

/-- Witness for C1 at a concrete non-admin render. -/
theorem layout_gate_witness :
    (dashboardLayoutContent true false false true =
        LayoutRender.restricted ↔ ¬(false = true ∧ true = true)) ∧
    (dashboardLayoutContent true false false true =
        LayoutRender.shell ↔ (false = true ∧ true = true)) :=
  layout_gate true false false true rfl rfl

/-- C7 counterexample: a non-null user together with a non-null but empty
token (reachable, since `handleVerifyOtp` falls back to `token: ... || ""`)
makes `isAuthenticated` false even though both `user` and `token` are
non-null, refuting "isAuthenticated is true iff both user and token are
non-null". -/
theorem auth_flags_counterexample :
    (some "" : Option String) ≠ none ∧
    (some demoUser : Option User) ≠ none ∧
    isAuthenticatedOf (some demoUser) (some "") = false :=
  ⟨by decide, fun h => Option.noConfusion h, rfl⟩

/-- C7 amended: `isAdmin` is true iff the user is non-null with
`user_type = "ADMIN"`; `isAuthenticated` is true iff the user is non-null
and the token is non-null AND non-empty (JS string truthiness); after
`logout` both flags are false and the stored entry is cleared. -/
theorem auth_flags_amended (user : Option User) (token : Option String) :
    (isAdminOf user = true ↔ ∃ u, user = some u ∧ u.user_type = "ADMIN") ∧
    (isAuthenticatedOf user token = true ↔
      user ≠ none ∧ ∃ t, token = some t ∧ t ≠ "") ∧
    (∀ s st,
      (logoutApply s st).1.user = none ∧
      (logoutApply s st).1.token = none ∧
      isAuthenticatedOf (logoutApply s st).1.user (logoutApply s st).1.token
        = false ∧
      isAdminOf (logoutApply s st).1.user = false ∧
      (logoutApply s st).2 AUTH_STORAGE_KEY = none) := by
  refine ⟨?_, ?_, ?_⟩
  · cases user with
    | none => simp [isAdminOf]
    | some u => simp [isAdminOf]
  · cases user with
    | none => simp [isAuthenticatedOf]
    | some u =>
      cases token with
      | none => simp [isAuthenticatedOf, truthyStr]
      | some t => simp [isAuthenticatedOf, truthyStr]
  · intro s st
    refine ⟨rfl, rfl, rfl, rfl, ?_⟩
    simp [logoutApply, storageRemove]

/-- Witness for C7's amended statement at a concrete admin state. -/
theorem auth_flags_amended_witness :
    isAdminOf (some demoUser) = true ↔
      ∃ u, (some demoUser : Option User) = some u ∧ u.user_type = "ADMIN" :=
  (auth_flags_amended (some demoUser) (some "tok")).1

/-- C6: the mount effect restores the stored session iff it parses and its
age is at most `EXPIRATION_MS` (48 h); a strictly older or unparsable
entry is removed with `user`/`token` left null; an entry aged exactly
48 hours is restored. -/
theorem auth_mount_spec (entry : StoredEntry) (now : Int) :
    (∀ sa, entry = StoredEntry.parsed sa → now - sa.timestamp ≤ EXPIRATION_MS →
      authMount entry now = ⟨some sa.user, some sa.token, false⟩) ∧
    (∀ sa, entry = StoredEntry.parsed sa → now - sa.timestamp > EXPIRATION_MS →
      authMount entry now = ⟨none, none, true⟩) ∧
    (∀ raw, entry = StoredEntry.unparsable raw →
      authMount entry now = ⟨none, none, true⟩) ∧
    ((authMount entry now).user.isSome = true →
      ∃ sa, entry = StoredEntry.parsed sa ∧ now - sa.timestamp ≤ EXPIRATION_MS) ∧
    (∀ sa, entry = StoredEntry.parsed sa → now - sa.timestamp = EXPIRATION_MS →
      authMount entry now = ⟨some sa.user, some sa.token, false⟩) := by
  refine ⟨?_, ?_, ?_, ?_, ?_⟩
  · intro sa he hage
    subst he
    simp [authMount, not_lt.mpr hage]
  · intro sa he hage
    subst he
    simp [authMount, hage]
  · intro raw he
    subst he
    rfl
  · intro hsome
    cases entry with
    | absent => simp [authMount] at hsome
    | unparsable raw => simp [authMount] at hsome
    | parsed sa =>
      by_cases hage : now - sa.timestamp > EXPIRATION_MS
      · simp [authMount, hage] at hsome
      · exact ⟨sa, rfl, not_lt.mp hage⟩
  · intro sa he hage
    subst he
    simp [authMount, hage]

/-- Witness for C6 at the exact-48-hour boundary. -/
theorem auth_mount_spec_witness :
    authMount (StoredEntry.parsed ⟨demoUser, "tok", 0⟩) EXPIRATION_MS =
      ⟨some demoUser, some "tok", false⟩ :=
  (auth_mount_spec (StoredEntry.parsed ⟨demoUser, "tok", 0⟩)
      EXPIRATION_MS).2.2.2.2 ⟨demoUser, "tok", 0⟩ rfl (by decide)

/-- C3: starting from a storage with no `"token"` / `"auth_token"` entries,
a login performed through `AuthContext` (which persists only under
`"lancorc_auth"`) leaves `getHeaders` without any `Authorization` header:
the stored token is never attached to the users-API requests. -/
theorem login_token_not_attached (st : Storage) (blob : String)
    (response : AuthResponse)
    (h1 : st "token" = none) (h2 : st "auth_token" = none) :
    getHeaders (loginApply st blob response).2 =
      [("Content-Type", "application/json")] ∧
    ∀ p ∈ getHeaders (loginApply st blob response).2, p.1 ≠ "Authorization" := by
  have e1 : (("token" : String) == AUTH_STORAGE_KEY) = false := by decide
  have e2 : (("auth_token" : String) == AUTH_STORAGE_KEY) = false := by decide
  have hmain : getHeaders (loginApply st blob response).2 =
      [("Content-Type", "application/json")] := by
    simp [loginApply, getHeaders, getHeadersToken, jsOrOpt, storageSet,
      e1, e2, h1, h2]
  refine ⟨hmain, ?_⟩
  rw [hmain]
  intro p hp
  simp at hp
  simp [hp]

/-- Witness for C3 over the empty storage. -/
theorem login_token_not_attached_witness :
    getHeaders (loginApply emptyStorage "blob" ⟨"tok", demoUser⟩).2 =
      [("Content-Type", "application/json")] :=
  (login_token_not_attached emptyStorage "blob" ⟨"tok", demoUser⟩ rfl rfl).1

/-- C4: `handleVerifyOtp` sends the `/verify-otp` request only while
`attempts < MAX_ATTEMPTS`; each failed verification response increments
`attempts` by exactly one; once `attempts` reaches the cap, a Verify
action (which requires a well-formed 6-digit OTP) yields the
maximum-attempts error without issuing a request; `handleResendOtp` and a
successful `handleSendOtp` reset `attempts` to 0. -/
theorem otp_attempts_invariant (s : OtpState) :
    (handleVerifyGuard s = VerifyAction.send → s.attempts < MAX_ATTEMPTS) ∧
    (∀ msg, (handleVerifyFailure s msg).attempts = s.attempts + 1) ∧
    (s.attempts ≥ MAX_ATTEMPTS → (strTrim s.otp) ≠ "" → s.otp.length = 6 →
      handleVerifyGuard s =
        VerifyAction.reject "Maximum attempts exceeded. Please request a new OTP.") ∧
    ((handleResend s).attempts = 0) ∧
    (∀ now, (handleSendOtpSuccess s now).attempts = 0) := by
  refine ⟨?_, fun msg => rfl, ?_, rfl, fun now => rfl⟩
  · intro h
    unfold handleVerifyGuard at h
    by_cases h1 : ((strTrim s.otp) == "" || s.otp.length != 6) = true
    · simp [h1] at h
    · rw [if_neg (by simpa using h1)] at h
      by_cases h2 : s.attempts ≥ MAX_ATTEMPTS
      · rw [if_pos h2] at h
        exact absurd h (by simp)
      · omega
  · intro hge hne hlen
    have c1 : ((strTrim s.otp) == "") = false := beq_eq_false_iff_ne.mpr hne
    have c2 : (s.otp.length != 6) = false := by simp [hlen]
    simp [handleVerifyGuard, c1, c2, hge]

/-- Witness for C4 at a maxed-out state with a well-formed OTP. -/
theorem otp_attempts_invariant_witness :
    handleVerifyGuard
        ⟨Step.otp, "a@b.c", "123456", false, "", "", 3, some 0, 600, true⟩ =
      VerifyAction.reject "Maximum attempts exceeded. Please request a new OTP." :=
  (otp_attempts_invariant
      ⟨Step.otp, "a@b.c", "123456", false, "", "", 3, some 0, 600, true⟩).2.2.1
    (by decide) (by decide) (by decide)

/-- The `/verify-otp` response body used for the C2 counterexample: a
successful response with no user object, no role field, but an explicit
`isActive: false`. -/
def verifyDataNoRole : VerifyData :=
  { ok := true, success := none, valid := none, error := none, message := none
  , token := some "tok", jwt := none, accessToken := none, dataToken := none
  , user := none, userDto := none, profile := none, dataUser := none
  , userId := some "u-9", id := none, user_id := none
  , societyId := some "s-9", society_id := none
  , name := some "Eve", fullName := none, full_name := none
  , email := some "eve@example.com", phone := none
  , userType := none, user_type := none, role := none
  , isActive := some false, is_active := none }

/-- Same body as `verifyDataNoRole` but with no `isActive` field either,
matching the amended C2 hypotheses. -/
def verifyDataBare : VerifyData :=
  { verifyDataNoRole with isActive := none }

/-- C2 counterexample: a successful verify response with no user object
and no role field, but containing `isActive: false`, satisfies every
hypothesis of the claim yet yields a constructed user with
`is_active = false`, refuting the claimed `is_active = true`. -/
theorem verify_default_admin_counterexample :
    verifyDataNoRole.ok = true ∧
    isFailure verifyDataNoRole = false ∧
    firstUserObj verifyDataNoRole = none ∧
    verifyDataNoRole.userType = none ∧
    verifyDataNoRole.user_type = none ∧
    verifyDataNoRole.role = none ∧
    (verifyAuthResponse verifyDataNoRole "eve@example.com").user.user_type
      = "ADMIN" ∧
    (verifyAuthResponse verifyDataNoRole "eve@example.com").user.is_active
      = false :=
  ⟨rfl, rfl, rfl, rfl, rfl, rfl, rfl, rfl⟩

/-- C2 amended: if the verify response is successful (`res.ok`, no
`success:false` / `valid:false` / truthy `error`), carries no user object,
no role field (`userType` / `user_type` / `role`), and no active flag
(`isActive` / `is_active`), then the user passed to `login` has
`user_type = "ADMIN"` and `is_active = true`, and passes the `isAdmin`
gate. -/
theorem verify_default_admin_amended (d : VerifyData) (email : String)
    (hfail : isFailure d = false)
    (huser : firstUserObj d = none)
    (h1 : d.userType = none) (h2 : d.user_type = none) (h3 : d.role = none)
    (h4 : d.isActive = none) (h5 : d.is_active = none) :
    d.ok = true ∧
    (verifyAuthResponse d email).user.user_type = "ADMIN" ∧
    (verifyAuthResponse d email).user.is_active = true ∧
    isAdminOf (some (verifyAuthResponse d email).user) = true := by
  cases hd : d.ok with
  | false => exact absurd hfail (by simp [isFailure, hd])
  | true =>
    refine ⟨rfl, ?_, ?_, ?_⟩ <;>
      simp [verifyAuthResponse, huser, fallbackUser, h1, h2, h3, h4, h5,
        jsOr, nullish, isAdminOf]

/-- Witness for C2's amended statement on a concrete bare response. -/
theorem verify_default_admin_amended_witness :
    (verifyAuthResponse verifyDataBare "eve@example.com").user.user_type
      = "ADMIN" ∧
    (verifyAuthResponse verifyDataBare "eve@example.com").user.is_active
      = true :=
  ⟨(verify_default_admin_amended verifyDataBare "eve@example.com"
      rfl rfl rfl rfl rfl rfl rfl).2.1,
   (verify_default_admin_amended verifyDataBare "eve@example.com"
      rfl rfl rfl rfl rfl rfl rfl).2.2.1⟩

/-- C5 counterexample: starting from a live OTP step (sent at `t0 = 0`),
at `now = 600000` ms — exactly 10 minutes later — the countdown tick
clears the OTP, yet after the user re-types the same 6 digits (no Resend,
`otpSentTime` unchanged) the Verify guard still issues the `/verify-otp`
request: the expired code CAN be submitted again without requesting a new
OTP, refuting that part of the claim. -/
theorem otp_expiry_resubmit_counterexample :
    OTP_EXPIRY_MINUTES * 60 * 1000 ≤ (600000 : Int) - 0 ∧
    (tick ⟨Step.otp, "a@b.c", "123456", false, "", "", 0, some 0, 600, true⟩
        600000).otp = "" ∧
    (setOtpInput
        (tick ⟨Step.otp, "a@b.c", "123456", false, "", "", 0, some 0, 600, true⟩
          600000) "123456").otpSentTime = some 0 ∧
    handleVerifyGuard
        (setOtpInput
          (tick ⟨Step.otp, "a@b.c", "123456", false, "", "", 0, some 0, 600, true⟩
            600000) "123456") = VerifyAction.send := by
  refine ⟨by decide, ?_, ?_, ?_⟩ <;> decide

/-- C5 amended: once `OTP_EXPIRY_MINUTES` (10 minutes) have elapsed since
the OTP was sent, the countdown tick shows "OTP has expired. Please
request a new one.", clears the entered OTP, and stops the countdown; the
cleared input makes an immediate Verify fail the 6-digit guard, but
`handleVerifyOtp` performs no expiry check of its own, so re-entering a
6-digit code still submits it (see the counterexample). -/
theorem otp_expiry_behavior (s : OtpState) (t0 now : Int)
    (hsent : s.otpSentTime = some t0)
    (hexp : OTP_EXPIRY_MINUTES * 60 * 1000 ≤ now - t0) :
    (tick s now).error = "OTP has expired. Please request a new one." ∧
    (tick s now).otp = "" ∧
    (tick s now).timerActive = false ∧
    handleVerifyGuard (tick s now) =
      VerifyAction.reject "Please enter a valid 6-digit OTP" := by
  have h1000 : (0 : Int) < 1000 := by decide
  have hdiv : (600 : Int) ≤ (now - t0) / 1000 := by
    apply Int.le_ediv_of_mul_le h1000
    simpa [OTP_EXPIRY_MINUTES] using hexp
  have hfd : (now - t0).fdiv 1000 = (now - t0) / 1000 :=
    Int.fdiv_eq_ediv _ (by decide)
  have hrem : OTP_EXPIRY_MINUTES * 60 - (now - t0).fdiv 1000 ≤ 0 := by
    rw [hfd]
    simp only [OTP_EXPIRY_MINUTES]
    omega
  have htick : tick s now =
      { s with error := "OTP has expired. Please request a new one."
             , otp := ""
             , timerActive := false
             , timeLeft := OTP_EXPIRY_MINUTES * 60 - (now - t0).fdiv 1000 } := by
    unfold tick
    rw [hsent]
    simp only [if_pos hrem]
  rw [htick]
  refine ⟨rfl, rfl, rfl, ?_⟩
  simp [handleVerifyGuard, strTrim]

/-- Witness for C5's amended statement at a concrete expired state. -/
theorem otp_expiry_behavior_witness :
    (tick ⟨Step.otp, "a@b.c", "111111", false, "", "", 1, some 0, 600, true⟩
        700000).otp = "" :=
  (otp_expiry_behavior
      ⟨Step.otp, "a@b.c", "111111", false, "", "", 1, some 0, 600, true⟩
      0 700000 rfl (by decide)).2.1

/-- C8: `filteredUsers` contains exactly the users whose name or email
contains the search term case-insensitively (or the term is empty) and
whose type matches the filter (or the filter is `"ALL"`), in the same
relative order as the fetched list (a sublist); with empty term and
filter `"ALL"` it equals the fetched list. -/
theorem filtered_users_spec (users : List User) (searchTerm typeFilter : String) :
    (∀ u, u ∈ filteredUsers users searchTerm typeFilter ↔
      u ∈ users ∧
        (searchTerm = "" ∨
          strIncludes u.full_name.toLower searchTerm.toLower = true ∨
          strIncludes u.email.toLower searchTerm.toLower = true) ∧
        (typeFilter = "ALL" ∨ u.user_type = typeFilter)) ∧
    (filteredUsers users searchTerm typeFilter).Sublist users ∧
    filteredUsers users "" "ALL" = users := by
  refine ⟨?_, List.filter_sublist _, ?_⟩
  · intro u
    rw [filteredUsers, List.mem_filter]
    simp [matchesUser, or_assoc]
  · rw [filteredUsers, List.filter_eq_self]
    intro u _
    simp [matchesUser]

/-- Witness for C8: with empty search and the `"ALL"` filter the list is
returned unchanged. -/
theorem filtered_users_spec_witness :
    filteredUsers [demoUser, demoOwner] "" "ALL" = [demoUser, demoOwner] :=
  (filtered_users_spec [demoUser, demoOwner] "x" "OWNER").2.2

/-- C9: the users query runs only when the logged-in user has a truthy
(non-empty) `society_id` and is authenticated, and then the request URL
carries that `society_id` as the `societyId` query parameter; when the
query is not enabled (in particular when the `society_id` is absent) the
displayed list is the `[]` default. -/
theorem users_query_spec (user : Option User) (isAuth : Bool)
    (fetched : List User) :
    (usersQueryEnabled user isAuth = true →
      ∃ u, user = some u ∧ u.society_id ≠ "" ∧ isAuth = true ∧
        queryFnSocietyArg user = u.society_id ∧
        fetchUsersUrl (queryFnSocietyArg user) =
          usersApiBase ++ "?societyId=" ++ u.society_id) ∧
    (usersQueryEnabled user isAuth = false →
      usersQueryData user isAuth fetched = []) ∧
    (∀ u, user = some u → u.society_id = "" →
      usersQueryEnabled user isAuth = false) := by
  refine ⟨?_, ?_, ?_⟩
  · intro h
    cases user with
    | none => simp [usersQueryEnabled, truthyStr] at h
    | some u =>
      have hne : u.society_id ≠ "" := by
        by_contra heq
        simp [usersQueryEnabled, truthyStr, heq] at h
      have hau : isAuth = true := by
        rcases Bool.and_eq_true .. |>.mp h with ⟨_, ha⟩
        exact ha
      have harg : queryFnSocietyArg (some u) = u.society_id := by
        simp [queryFnSocietyArg, jsOr, hne]
      exact ⟨u, rfl, hne, hau, harg, by rw [harg, fetchUsersUrl]⟩
  · intro h
    simp [usersQueryData, h]
  · intro u he hempty
    subst he
    simp [usersQueryEnabled, truthyStr, hempty]

/-- Witness for C9: with no logged-in user the displayed list is empty. -/
theorem users_query_spec_witness :
    usersQueryData none true [demoUser] = [] :=
  (users_query_spec none true [demoUser]).2.1 rfl

/-- C10: a successful `softDeleteUser` call only deactivates the first
record with the requested id — the list keeps its length and order, every
other record is untouched, and the hit record changes nothing but
`is_active` (a record update of that single field); on the live page the
Delete action issues the status toggle to `active=false`, and the button
is disabled exactly when `is_active` is already false. -/
theorem soft_delete_frame (users : List User) (uid : String)
    (users2 : List User) (h : softDeleteUser users uid = some users2) :
    (∃ pre u post,
      users = pre ++ u :: post ∧
      users2 = pre ++ { u with is_active := false } :: post ∧
      u.user_id = uid ∧
      users2.length = users.length) ∧
    deleteRequestUrl uid = usersApiBase ++ "/" ++ uid ++ "/status?active=false" ∧
    (∀ v : User, deleteButtonDisabled v = !v.is_active) := by
  refine ⟨?_, ?_, fun v => rfl⟩
  case refine_2 =>
    rw [deleteRequestUrl, toggleStatusUrl, if_neg (by simp), String.append_assoc]
    rfl
  induction users generalizing users2 with
  | nil => simp [softDeleteUser] at h
  | cons u rest ih =>
    rw [softDeleteUser] at h
    by_cases hu : (u.user_id == uid) = true
    · rw [if_pos hu] at h
      injection h with h2
      exact ⟨[], u, rest, rfl, h2.symm, beq_iff_eq.mp hu, by simp [← h2]⟩
    · rw [if_neg (by simpa using hu)] at h
      cases hrec : softDeleteUser rest uid with
      | none => rw [hrec] at h; cases h
      | some rest2 =>
        rw [hrec] at h
        injection h with h2
        obtain ⟨pre, w, post, e1, e2, e3, _⟩ := ih rest2 hrec
        refine ⟨u :: pre, w, post, by simp [e1], ?_, e3, ?_⟩
        · rw [← h2, e2]
          simp
        · rw [← h2, e1, e2]
          simp

/-- Witness for C10 on the mock seed data: deleting the second record
flips only its `is_active`. -/
theorem soft_delete_frame_witness :
    deleteRequestUrl "bbbbbbbb-bbbb-bbbb-bbbb-bbbbbbbbbbbb" =
      usersApiBase ++ "/" ++ "bbbbbbbb-bbbb-bbbb-bbbb-bbbbbbbbbbbb" ++
        "/status?active=false" :=
  (soft_delete_frame [demoUser, demoOwner] "bbbbbbbb-bbbb-bbbb-bbbb-bbbbbbbbbbbb"
      [demoUser, { demoOwner with is_active := false }] (by decide)).2.1

end LancorC
